import Mathlib

/-!
Verification of the News-App repository: a shallow embedding of its
utility transforms, provider clients and fetch dispatcher, together with
theorems settling the specified properties.

Python strings are modelled as Lean `String` (lists of characters); a
value that may be Python `None` or an absent dictionary key is modelled
as an `Option`.  Python functions that can raise are embedded as
`Except PyExc` valued functions.  External library calls (the HTTP GET
performed by `urllib.request.urlopen` and the JSON parser `json.loads`)
are parameters of the embedding, so theorems quantify over their
behaviour.
-/

namespace NewsApp

/-- The ASCII whitespace code points removed by Python `str.strip`:
space, tab, newline, carriage return, vertical tab, form feed. -/
def isPyWhitespace (c : Char) : Bool :=
  c.toNat = 32 || c.toNat = 9 || c.toNat = 10 || c.toNat = 13 ||
    c.toNat = 11 || c.toNat = 12

/-- One character of Python `str.strip` composed from both ends:
remove leading whitespace, then trailing whitespace (ASCII model). -/
def pyStripData (l : List Char) : List Char :=
  List.rdropWhile isPyWhitespace (l.dropWhile isPyWhitespace)

/-- Python `str.strip()` on a string. -/
def pyStrip (s : String) : String :=
  ⟨pyStripData s.data⟩

/-- Python `str.lower` on one character (ASCII fragment: maps A-Z to a-z,
leaves every other character unchanged). -/
def pyLowerChar (c : Char) : Char :=
  if 65 ≤ c.toNat ∧ c.toNat ≤ 90 then Char.ofNat (c.toNat + 32) else c

/-- Python `str.lower()` on a string (ASCII model). -/
def pyLower (s : String) : String :=
  ⟨s.data.map pyLowerChar⟩

/-- Python slicing `s[:n]`: the first `n` characters of `s`. -/
def pySlice (s : String) (n : Nat) : String :=
  ⟨s.data.take n⟩

/-- Python `str.isalnum` on one character (ASCII model: digits 0-9,
letters A-Z and a-z). -/
def pyIsAlnumChar (c : Char) : Bool :=
  (48 ≤ c.toNat && c.toNat ≤ 57) || (65 ≤ c.toNat && c.toNat ≤ 90) ||
    (97 ≤ c.toNat && c.toNat ≤ 122)

/-- Python `str.isalnum()`: true iff the string is non-empty and every
character is alphanumeric. -/
def pyIsAlnum (s : String) : Bool :=
  !s.data.isEmpty && s.data.all pyIsAlnumChar

/-- The `source` sub-dictionary of an article: `{"name": ...}`.
`name = none` models an absent `"name"` key or a `None` value. -/
structure Source where
  name : Option String
deriving DecidableEq, Repr

/-- An article dictionary as produced by NewsAPI.  Each `Option` field
models a key that may be absent or have value `None`; in particular
`source = none` models both a missing `"source"` key and `"source": None`.
`reading_time` is absent until `get_reading_time` adds it. -/
structure Article where
  title : Option String
  description : Option String
  content : Option String
  source : Option Source
  reading_time : Option Nat
deriving DecidableEq, Repr

/-- The Python exceptions the embedded code can raise. -/
inductive PyExc where
  /-- `ValueError(msg)` -/
  | valueError (msg : String)
  /-- the custom `APIKeyError(msg)` from `exceptions.py` -/
  | apiKeyError (msg : String)
  /-- the KeyError / TypeError / AttributeError raised when a required
  field is absent or `None` (collapsed, since `Option` models both) -/
  | lookupError (field : String)
  /-- `json.JSONDecodeError` from `json.loads` -/
  | jsonDecodeError
  /-- `urllib.error.URLError` that is not an `HTTPError` (DNS failure …) -/
  | urlError (reason : String)
  /-- socket timeout raised by `urlopen` -/
  | timeoutError
  /-- `TypeError` on a call with the wrong number of arguments -/
  | arityError
deriving DecidableEq, Repr

/-- `utils.clean_text` (also duplicated in `main.py`):
`if not text: return ""` then `return text.strip().lower()`.
The argument is `Option String` so that both `None` and `""` (the falsy
inputs) can be passed. -/
def clean_text : Option String → String
  | none => ""
  | some t => if t = "" then "" else pyLower (pyStrip t)

/-- `utils.process_article_data`: `return {}` — discards its input and
returns the empty dictionary (modelled as an association list). -/
def process_article_data (raw_data : List (String × String)) :
    List (String × String) :=
  []

/-- The element function of the set comprehension in
`utils.get_unique_sources`: yields `article["source"]["name"]` exactly
when `article.get("source")` and `article.get("source").get("name")` are
both truthy (source present and non-`None`, name present, non-`None` and
non-empty). -/
def unique_source_name (a : Article) : Option String :=
  match a.source with
  | some r =>
    match r.name with
    | some nm => if nm = "" then none else some nm
    | none => none
  | none => none

/-- `utils.get_unique_sources`: the set comprehension
`{article.get("source").get("name") for article in articles if ...}`. -/
def get_unique_sources (articles : List Article) : Finset String :=
  (articles.filterMap unique_source_name).toFinset

/-- `utils.get_articles_by_source`:
`list(filter(lambda article: article["source"]["name"].lower() == source.lower(), articles))`.
The subscripting raises on an absent/`None` `source` or `name`, at the
first offending article, so the embedding is `Except`-valued. -/
def get_articles_by_source : List Article → String → Except PyExc (List Article)
  | [], _ => .ok []
  | a :: rest, source =>
    match a.source with
    | none => .error (.lookupError "source")
    | some r =>
      match r.name with
      | none => .error (.lookupError "name")
      | some nm =>
        match get_articles_by_source rest source with
        | .error e => .error e
        | .ok res =>
          .ok (if pyLower nm = pyLower source then a :: res else res)

/-- The boolean predicate of the `filter` lambda in
`get_articles_by_source`, total on articles that have a source name. -/
def nameMatches (source : String) (a : Article) : Bool :=
  match a.source with
  | some r =>
    match r.name with
    | some nm => pyLower nm = pyLower source
    | none => false
  | none => false

/-- `utils.get_reading_time`:
`minutes = len(article["content"]) // 200 + 1; article["reading_time"] = minutes; return article`.
The in-place mutation is modelled as returning the input record with
only the `reading_time` field updated. -/
def get_reading_time (article : Article) : Except PyExc Article :=
  match article.content with
  | none => .error (.lookupError "content")
  | some c => .ok { article with reading_time := some (c.length / 200 + 1) }

/-- `api_client.validate_api_key` (also duplicated in `main.py`):
`return len(api_key) > 10 and api_key.isalnum()`. -/
def validate_api_key (api_key : String) : Bool :=
  decide (api_key.length > 10) && pyIsAlnum api_key

/-- Decidable form of the assumption that an article carries a
source name: `article["source"]["name"]` would not raise. -/
def hasSourceName (a : Article) : Bool :=
  (a.source.bind Source.name).isSome

/-- Decidable equality for `Except`, so that concrete client results can
be checked by evaluation. -/
instance {ε α : Type} [DecidableEq ε] [DecidableEq α] :
    DecidableEq (Except ε α) := fun x y =>
  match x, y with
  | .ok a, .ok b =>
    if h : a = b then .isTrue (by rw [h]) else
      .isFalse (by intro hc; cases hc; exact h rfl)
  | .error e, .error f =>
    if h : e = f then .isTrue (by rw [h]) else
      .isFalse (by intro hc; cases hc; exact h rfl)
  | .ok _, .error _ => .isFalse (by intro hc; cases hc)
  | .error _, .ok _ => .isFalse (by intro hc; cases hc)

/-- `config.BASE_URL`. -/
def BASE_URL : String :=
  "https://newsapi.org/v2/everything"

/-- Uppercase hexadecimal digit for `n < 16`, as used by percent-encoding. -/
def hexDigit (n : Nat) : Char :=
  if n < 10 then Char.ofNat (48 + n) else Char.ofNat (55 + n)

/-- UTF-8 byte sequence of a code point, as Python percent-encodes
non-ASCII characters byte by byte. -/
def utf8Bytes (n : Nat) : List Nat :=
  if n < 128 then [n]
  else if n < 2048 then [192 + n / 64, 128 + n % 64]
  else if n < 65536 then [224 + n / 4096, 128 + n / 64 % 64, 128 + n % 64]
  else [240 + n / 262144, 128 + n / 4096 % 64, 128 + n / 64 % 64, 128 + n % 64]

/-- The characters `urllib.parse.quote_plus` never encodes:
ASCII alphanumerics and `_.-~`. -/
def isUrlSafeChar (c : Char) : Bool :=
  (65 ≤ c.toNat && c.toNat ≤ 90) || (97 ≤ c.toNat && c.toNat ≤ 122) ||
    (48 ≤ c.toNat && c.toNat ≤ 57) ||
    c = Char.ofNat 45 || c = Char.ofNat 95 || c = Char.ofNat 46 || c = Char.ofNat 126

/-- Percent-encoding `%XX` of one byte. -/
def percentByte (b : Nat) : List Char :=
  [Char.ofNat 37, hexDigit (b / 16), hexDigit (b % 16)]

/-- Encoding of one character under `urllib.parse.quote_plus`: safe
characters pass through, a space becomes `+`, anything else is
percent-encoded via its UTF-8 bytes. -/
def quotePlusChar (c : Char) : List Char :=
  if isUrlSafeChar c then [c]
  else if c = ' ' then ['+']
  else ((utf8Bytes c.toNat).map percentByte).flatten

/-- `urllib.parse.quote_plus` on a string. -/
def quote_plus (s : String) : String :=
  ⟨(s.data.map quotePlusChar).flatten⟩

/-- `urllib.parse.urlencode` on an ordered list of key-value pairs. -/
def urlencode (params : List (String × String)) : String :=
  String.intercalate "&" (params.map fun kv => quote_plus kv.1 ++ "=" ++ quote_plus kv.2)

/-- Outcome of the blocking HTTP GET done by `urllib.request.urlopen`,
a parameter of the embedding. -/
inductive NetResult where
  /-- 2xx response with a decoded UTF-8 body -/
  | success (body : String)
  /-- `urllib.error.HTTPError` with its status code -/
  | httpError (status : Nat)
  /-- `urllib.error.URLError` that is not an `HTTPError` (DNS failure …) -/
  | urlError (reason : String)
  /-- socket timeout -/
  | timeoutError
deriving DecidableEq, Repr

/-- A parsed JSON value, the result type of `json.loads`. -/
inductive PyJson where
  | null
  | bool (b : Bool)
  | num (n : Int)
  | str (s : String)
  | arr (elems : List PyJson)
  | obj (fields : List (String × PyJson))

/-- A Python value returned by a provider client: the Guardian stub
returns a string, the NewsAPI client returns parsed JSON. -/
inductive PyVal where
  | str (s : String)
  | json (j : PyJson)

/-- The `url` local variable of `newsapi_client`:
`f"{BASE_URL}?{urllib.parse.urlencode({"q": query, "apiKey": api_key})}"`. -/
def newsapi_url (api_key query : String) : String :=
  BASE_URL ++ "?" ++ urlencode [("q", query), ("apiKey", api_key)]

/-- `api_client.newsapi_client` (also duplicated in `main.py`).
`net` models `urllib.request.urlopen` plus `response.read().decode("utf-8")`;
`loads` models `json.loads` (`none` = `json.JSONDecodeError`).  The
`try`/`except` catches exactly `urllib.error.HTTPError` and re-raises it
as `APIKeyError` with a fixed message; every other failure propagates.
`timeout` is forwarded to the GET and `retries` is accepted but unused,
as in the source. -/
def newsapi_client (net : String → NetResult) (loads : String → Option PyJson)
    (api_key query : String) (timeout retries : Nat) : Except PyExc PyVal :=
  match net (newsapi_url api_key query) with
  | .success body =>
    match loads body with
    | some j => .ok (.json j)
    | none => .error .jsonDecodeError
  | .httpError _ => .error (.apiKeyError "Ocurrió un error, no se pudo conectar con la API.")
  | .urlError reason => .error (.urlError reason)
  | .timeoutError => .error .timeoutError

/-- `api_client.guardian_client`: a stub that performs no network call and
returns `f"Guardian: {section} desde {from_date} con timeout {timeout}"`. -/
def guardian_client (api_key sectionName from_date : String)
    (timeout retries : Nat) : String :=
  "Guardian: " ++ sectionName ++ " desde " ++ from_date ++ " con timeout " ++ toString timeout

/-- The keyword arguments accepted by `fetch_news`; `none` means the
caller did not supply the key, so the default from `base_config` wins in
the shallow merge `{**base_config, **kwargs}`. -/
structure Kwargs where
  timeout : Option Nat
  retries : Option Nat

/-- `api_client.fetch_news`: validates the provider name against the
fixed registry `("news_api", "guardian")`, raising
the ValueError whose message embeds the unsupported name before the client
table is consulted; then merges the default configuration with the
caller kwargs and dispatches to the selected client with the positional
arguments forwarded unchanged. -/
def fetch_news (net : String → NetResult) (loads : String → Option PyJson)
    (api_name : String) (args : List String) (kwargs : Kwargs) :
    Except PyExc PyVal :=
  if api_name = "news_api" ∨ api_name = "guardian" then
    let timeout := kwargs.timeout.getD 30
    let retries := kwargs.retries.getD 3
    if api_name = "news_api" then
      match args with
      | [api_key, query] => newsapi_client net loads api_key query timeout retries
      | _ => .error .arityError
    else
      match args with
      | [api_key, sectionName, from_date] =>
        .ok (.str (guardian_client api_key sectionName from_date timeout retries))
      | _ => .error .arityError
  else
    .error (.valueError ("Error. API \x27" ++ api_name ++ "\x27 no soportada."))

/-- One line of the context block in `analyzer_articles_whit_ai`
(groqai.py and openai.py):
the f-string line of title and first 100 description characters. -/
def context_line (a : Article) : Except PyExc String :=
  match a.title with
  | none => .error (.lookupError "title")
  | some t =>
    match a.description with
    | none => .error (.lookupError "description")
    | some d => .ok ("Título: " ++ t ++ " - Descripción: " ++ pySlice d 100)

/-- The list comprehension over `articles[:10]` inside
`analyzer_articles_whit_ai`, evaluated left to right. -/
def context_lines : List Article → Except PyExc (List String)
  | [] => .ok []
  | a :: rest =>
    match context_line a with
    | .error e => .error e
    | .ok line =>
      match context_lines rest with
      | .error e => .error e
      | .ok lines => .ok (line :: lines)

/-- The `context` variable of `analyzer_articles_whit_ai`:
`"\n".join([... for article in articles[:10]])`. -/
def build_context (articles : List Article) : Except PyExc String :=
  (context_lines (articles.take 10)).map (String.intercalate "\n")

theorem char_toNat_ofNat (n : Nat) (h : n < 55296) : (Char.ofNat n).toNat = n := by
  have hv : Nat.isValidChar n := Or.inl h
  simp [Char.ofNat, hv, Char.ofNatAux, Char.toNat]
  rfl

theorem toNat_pyLowerChar (c : Char) :
    (pyLowerChar c).toNat =
      if 65 ≤ c.toNat ∧ c.toNat ≤ 90 then c.toNat + 32 else c.toNat := by
  unfold pyLowerChar
  by_cases h : 65 ≤ c.toNat ∧ c.toNat ≤ 90
  · rw [if_pos h, if_pos h, char_toNat_ofNat]
    omega
  · rw [if_neg h, if_neg h]

theorem ws_pyLowerChar (c : Char) :
    isPyWhitespace (pyLowerChar c) = isPyWhitespace c := by
  have ht := toNat_pyLowerChar c
  by_cases h : 65 ≤ c.toNat ∧ c.toNat ≤ 90
  · rw [if_pos h] at ht
    have hc : isPyWhitespace c = false := by
      simp only [isPyWhitespace, Bool.or_eq_false_iff, decide_eq_false_iff_not]
      omega
    have hl : isPyWhitespace (pyLowerChar c) = false := by
      simp only [isPyWhitespace, Bool.or_eq_false_iff, decide_eq_false_iff_not, ht]
      omega
    rw [hc, hl]
  · rw [if_neg h] at ht
    simp only [isPyWhitespace, ht]

theorem pyLowerChar_idem (c : Char) :
    pyLowerChar (pyLowerChar c) = pyLowerChar c := by
  by_cases h : 65 ≤ c.toNat ∧ c.toNat ≤ 90
  · have ht : (pyLowerChar c).toNat = c.toNat + 32 := by
      rw [toNat_pyLowerChar, if_pos h]
    show (if 65 ≤ (pyLowerChar c).toNat ∧ (pyLowerChar c).toNat ≤ 90 then
        Char.ofNat ((pyLowerChar c).toNat + 32) else pyLowerChar c) = pyLowerChar c
    rw [if_neg]
    rw [ht]
    omega
  · have hc : pyLowerChar c = c := by
      unfold pyLowerChar
      rw [if_neg h]
    rw [hc]
    exact hc

theorem dropWhile_head_false (p : Char → Bool) (l : List Char) (a : Char)
    (t : List Char) (h : l.dropWhile p = a :: t) : p a = false := by
  induction l with
  | nil => simp at h
  | cons x xs ih =>
    rw [List.dropWhile_cons] at h
    by_cases hx : p x = true
    · rw [if_pos hx] at h
      exact ih h
    · rw [if_neg hx] at h
      cases h
      simpa using hx

theorem dropWhile_pyStripData (l : List Char) :
    List.dropWhile isPyWhitespace (pyStripData l) = pyStripData l := by
  unfold pyStripData
  cases hv : List.rdropWhile isPyWhitespace (l.dropWhile isPyWhitespace) with
  | nil => simp
  | cons a v =>
    have hpre := List.rdropWhile_prefix isPyWhitespace (l.dropWhile isPyWhitespace)
    rw [hv] at hpre
    obtain ⟨t, ht⟩ := hpre
    have hpa : isPyWhitespace a = false := by
      refine dropWhile_head_false _ l a (v ++ t) ?_
      rw [← ht]
      simp
    rw [List.dropWhile_cons, hpa]
    simp

theorem pyStripData_idem (l : List Char) :
    pyStripData (pyStripData l) = pyStripData l := by
  show List.rdropWhile isPyWhitespace
      (List.dropWhile isPyWhitespace (pyStripData l)) = pyStripData l
  rw [dropWhile_pyStripData]
  exact List.rdropWhile_idempotent _ _

theorem rdropWhile_map_compat (p : Char → Bool) (f : Char → Char)
    (hp : ∀ c, p (f c) = p c) (l : List Char) :
    List.rdropWhile p (l.map f) = (List.rdropWhile p l).map f := by
  have hpf : p ∘ f = p := funext hp
  unfold List.rdropWhile
  rw [← List.map_reverse, List.dropWhile_map, hpf, List.map_reverse]

theorem pyStripData_map_lower (l : List Char) :
    pyStripData (l.map pyLowerChar) = (pyStripData l).map pyLowerChar := by
  unfold pyStripData
  rw [List.dropWhile_map,
    (funext ws_pyLowerChar : isPyWhitespace ∘ pyLowerChar = isPyWhitespace),
    rdropWhile_map_compat _ _ ws_pyLowerChar]

/-- C10: `process_article_data` returns the empty dictionary for every
input, discarding the argument entirely. -/
theorem process_article_data_spec (raw_data : List (String × String)) :
    process_article_data raw_data = [] :=
  rfl

/-- C9: `validate_api_key` returns true exactly when the key is longer
than 10 characters and non-empty with every character alphanumeric
(the `isalnum` test). -/
theorem validate_api_key_spec (api_key : String) :
    validate_api_key api_key = true ↔
      10 < api_key.length ∧ api_key.data ≠ [] ∧
        ∀ c ∈ api_key.data, pyIsAlnumChar c = true := by
  unfold validate_api_key pyIsAlnum
  simp [List.all_eq_true, List.isEmpty_iff, and_assoc]

theorem validate_api_key_witness : validate_api_key "abc123def456" = true :=
  (validate_api_key_spec "abc123def456").mpr (by decide)

theorem unique_source_name_eq_some (a : Article) (s : String) :
    unique_source_name a = some s ↔
      ∃ r, a.source = some r ∧ r.name = some s ∧ s ≠ "" := by
  obtain ⟨ti, de, co, src, rt⟩ := a
  cases src with
  | none => simp [unique_source_name]
  | some r =>
    obtain ⟨nmo⟩ := r
    cases nmo with
    | none => simp [unique_source_name]
    | some nm =>
      by_cases he : nm = ""
      · subst he
        simp only [unique_source_name, if_pos rfl]
        constructor
        · intro h
          simp at h
        · rintro ⟨r', hr', hn', hne⟩
          cases hr'
          cases hn'
          exact absurd rfl hne
      · simp only [unique_source_name, if_neg he]
        constructor
        · intro h
          cases h
          exact ⟨⟨some s⟩, rfl, rfl, he⟩
        · rintro ⟨r', hr', hn', _⟩
          cases hr'
          cases hn'
          rfl

/-- C5: membership in `get_unique_sources` is exactly having some
article with a present, non-null source whose name is present and
non-empty; being a `Finset`, the result has no duplicates. -/
theorem get_unique_sources_spec (articles : List Article) (s : String) :
    s ∈ get_unique_sources articles ↔
      ∃ a ∈ articles, ∃ r, a.source = some r ∧ r.name = some s ∧ s ≠ "" := by
  unfold get_unique_sources
  rw [List.mem_toFinset, List.mem_filterMap]
  constructor
  · rintro ⟨a, ha, hf⟩
    exact ⟨a, ha, (unique_source_name_eq_some a s).mp hf⟩
  · rintro ⟨a, ha, hr⟩
    exact ⟨a, ha, (unique_source_name_eq_some a s).mpr hr⟩

theorem get_unique_sources_witness :
    "BBC" ∈ get_unique_sources [⟨none, none, none, some ⟨some "BBC"⟩, none⟩] :=
  (get_unique_sources_spec [⟨none, none, none, some ⟨some "BBC"⟩, none⟩] "BBC").mpr
    ⟨⟨none, none, none, some ⟨some "BBC"⟩, none⟩, by simp, ⟨some "BBC"⟩, rfl, rfl,
      by decide⟩

/-- C2 counterexample: on the specified four-article input, whose fourth
article has a null source, `get_articles_by_source` raises (the filter
lambda subscripts the null source) instead of returning the two BBC
articles, so the claimed return value is wrong. -/
theorem scenario_filter_counterexample :
    get_articles_by_source
        [⟨none, none, none, some ⟨some "BBC"⟩, none⟩,
         ⟨none, none, none, some ⟨some "CNN"⟩, none⟩,
         ⟨none, none, none, some ⟨some "BBC"⟩, none⟩,
         ⟨none, none, none, none, none⟩] "bbc" =
      .error (.lookupError "source")
    ∧ get_articles_by_source
        [⟨none, none, none, some ⟨some "BBC"⟩, none⟩,
         ⟨none, none, none, some ⟨some "CNN"⟩, none⟩,
         ⟨none, none, none, some ⟨some "BBC"⟩, none⟩,
         ⟨none, none, none, none, none⟩] "bbc" ≠
      .ok [⟨none, none, none, some ⟨some "BBC"⟩, none⟩,
           ⟨none, none, none, some ⟨some "BBC"⟩, none⟩] := by
  constructor
  · decide
  · decide

/-- C2 amended: on the four-article input `get_unique_sources` returns
the set containing BBC and CNN; `get_articles_by_source` with "bbc"
raises on the null-source fourth article, and on the first three
articles it returns the first and third in their original order. -/
theorem scenario_sources_amended :
    get_unique_sources
        [⟨none, none, none, some ⟨some "BBC"⟩, none⟩,
         ⟨none, none, none, some ⟨some "CNN"⟩, none⟩,
         ⟨none, none, none, some ⟨some "BBC"⟩, none⟩,
         ⟨none, none, none, none, none⟩] = {"BBC", "CNN"}
    ∧ get_articles_by_source
        [⟨none, none, none, some ⟨some "BBC"⟩, none⟩,
         ⟨none, none, none, some ⟨some "CNN"⟩, none⟩,
         ⟨none, none, none, some ⟨some "BBC"⟩, none⟩,
         ⟨none, none, none, none, none⟩] "bbc" =
      .error (.lookupError "source")
    ∧ get_articles_by_source
        [⟨none, none, none, some ⟨some "BBC"⟩, none⟩,
         ⟨none, none, none, some ⟨some "CNN"⟩, none⟩,
         ⟨none, none, none, some ⟨some "BBC"⟩, none⟩] "bbc" =
      .ok [⟨none, none, none, some ⟨some "BBC"⟩, none⟩,
           ⟨none, none, none, some ⟨some "BBC"⟩, none⟩] := by
  refine ⟨?_, ?_, ?_⟩
  · decide
  · decide
  · decide

/-- C7: for an article with content string `c`, `get_reading_time`
returns the same article with `reading_time` set to
`len(c) // 200 + 1` and every other field unchanged. -/
theorem get_reading_time_spec (article : Article) (c : String)
    (h : article.content = some c) :
    get_reading_time article =
      .ok { title := article.title, description := article.description,
            content := article.content, source := article.source,
            reading_time := some (c.length / 200 + 1) } := by
  unfold get_reading_time
  rw [h]

theorem get_reading_time_witness :
    get_reading_time ⟨none, none, some "", none, none⟩ =
      .ok ⟨none, none, some "", none, some 1⟩ :=
  get_reading_time_spec ⟨none, none, some "", none, none⟩ "" rfl

theorem nameMatches_eq_true (source : String) (a : Article) :
    nameMatches source a = true ↔
      ∃ r nm, a.source = some r ∧ r.name = some nm ∧
        pyLower nm = pyLower source := by
  obtain ⟨ti, de, co, src, rt⟩ := a
  cases src with
  | none => simp [nameMatches]
  | some r =>
    obtain ⟨nmo⟩ := r
    cases nmo with
    | none => simp [nameMatches]
    | some nm =>
      simp only [nameMatches, decide_eq_true_eq]
      constructor
      · intro h
        exact ⟨⟨some nm⟩, nm, rfl, rfl, h⟩
      · rintro ⟨r', nm', hr', hn', h⟩
        cases hr'
        cases hn'
        exact h

theorem gabs_cons_named (ti de co : Option String) (rt : Option Nat)
    (nm : String) (rest : List Article) (source : String) :
    get_articles_by_source (⟨ti, de, co, some ⟨some nm⟩, rt⟩ :: rest) source =
      match get_articles_by_source rest source with
      | .error e => .error e
      | .ok res =>
        .ok (if pyLower nm = pyLower source then
          (⟨ti, de, co, some ⟨some nm⟩, rt⟩ : Article) :: res else res) :=
  rfl

theorem gabs_eq_filter (source : String) :
    ∀ articles : List Article, (∀ a ∈ articles, hasSourceName a = true) →
      get_articles_by_source articles source =
        .ok (articles.filter (nameMatches source)) := by
  intro articles
  induction articles with
  | nil => intro _; rfl
  | cons a rest ih =>
    intro h
    have ha := h a (List.mem_cons_self a rest)
    have hrest := ih fun x hx => h x (List.mem_cons_of_mem a hx)
    obtain ⟨ti, de, co, src, rt⟩ := a
    cases src with
    | none => simp [hasSourceName] at ha
    | some r =>
      obtain ⟨nmo⟩ := r
      cases nmo with
      | none => simp [hasSourceName] at ha
      | some nm =>
        rw [gabs_cons_named, hrest, List.filter_cons]
        have hm : nameMatches source ⟨ti, de, co, some ⟨some nm⟩, rt⟩ =
            decide (pyLower nm = pyLower source) := rfl
        rw [hm]
        by_cases hq : pyLower nm = pyLower source
        · simp [hq]
        · simp [hq]

/-- C4: assuming every article has a non-null source with a name,
`get_articles_by_source` succeeds and returns exactly the articles whose
source name equals the searched name case-insensitively, preserving
their relative input order (the result is the order-preserving filter of
the input). -/
theorem get_articles_by_source_spec (articles : List Article) (source : String)
    (h : ∀ a ∈ articles, hasSourceName a = true) :
    get_articles_by_source articles source =
      .ok (articles.filter (nameMatches source))
    ∧ List.Sublist (articles.filter (nameMatches source)) articles
    ∧ (∀ a, a ∈ articles.filter (nameMatches source) ↔
        a ∈ articles ∧ nameMatches source a = true)
    ∧ (∀ a ∈ articles.filter (nameMatches source),
        ∃ r nm, a.source = some r ∧ r.name = some nm ∧
          pyLower nm = pyLower source) :=
  ⟨gabs_eq_filter source articles h, List.filter_sublist articles,
   fun _ => List.mem_filter,
   fun a ha => (nameMatches_eq_true source a).mp (List.mem_filter.mp ha).2⟩

theorem get_articles_by_source_witness :
    get_articles_by_source
        [⟨none, none, none, some ⟨some "BBC News"⟩, none⟩,
         ⟨none, none, none, some ⟨some "CNN"⟩, none⟩] "bbc news" =
      .ok ([⟨none, none, none, some ⟨some "BBC News"⟩, none⟩,
            ⟨none, none, none, some ⟨some "CNN"⟩, none⟩].filter
        (nameMatches "bbc news")) :=
  (get_articles_by_source_spec _ _ (by decide)).1

/-- C6: `clean_text` maps the falsy inputs (None and the empty string)
to the empty string, maps every non-empty text to its stripped,
lowercased form, and is idempotent. -/
theorem clean_text_spec :
    clean_text none = "" ∧ clean_text (some "") = ""
    ∧ (∀ t : String, t ≠ "" → clean_text (some t) = pyLower (pyStrip t))
    ∧ (∀ x : Option String, clean_text (some (clean_text x)) = clean_text x) := by
  refine ⟨rfl, rfl, fun t ht => by simp [clean_text, ht], fun x => ?_⟩
  match x with
  | none => rfl
  | some t =>
    by_cases ht : t = ""
    · subst ht
      rfl
    · have hct : clean_text (some t) = pyLower (pyStrip t) := by
        simp [clean_text, ht]
      rw [hct]
      by_cases hw : pyLower (pyStrip t) = ""
      · rw [hw]
        rfl
      · have hgoal : clean_text (some (pyLower (pyStrip t))) =
            pyLower (pyStrip (pyLower (pyStrip t))) := by
          simp [clean_text, hw]
        rw [hgoal]
        have h1 : pyStrip (pyLower (pyStrip t)) = pyLower (pyStrip t) := by
          show String.mk (pyStripData ((pyStripData t.data).map pyLowerChar)) =
            String.mk ((pyStripData t.data).map pyLowerChar)
          rw [pyStripData_map_lower, pyStripData_idem]
        rw [h1]
        show String.mk (((pyStripData t.data).map pyLowerChar).map pyLowerChar) =
          String.mk ((pyStripData t.data).map pyLowerChar)
        rw [List.map_map]
        congr 1
        apply List.map_congr_left
        intro c _
        exact pyLowerChar_idem c

theorem clean_text_witness :
    clean_text (some "  MiXeD  ") = pyLower (pyStrip "  MiXeD  ") :=
  clean_text_spec.2.2.1 "  MiXeD  " (by decide)

theorem context_lines_ok (l : List Article)
    (h : ∀ a ∈ l, a.title.isSome ∧ a.description.isSome) :
    context_lines l = .ok (l.map fun a =>
      "Título: " ++ a.title.getD "" ++ " - Descripción: " ++
        pySlice (a.description.getD "") 100) := by
  induction l with
  | nil => rfl
  | cons a rest ih =>
    obtain ⟨ht, hd⟩ := h a (List.mem_cons_self a rest)
    obtain ⟨t, ht'⟩ := Option.isSome_iff_exists.mp ht
    obtain ⟨d, hd'⟩ := Option.isSome_iff_exists.mp hd
    have hrest := ih fun x hx => h x (List.mem_cons_of_mem a hx)
    simp only [context_lines, context_line, ht', hd', hrest, List.map_cons,
      Option.getD_some]

/-- C8: the analysis forwarder context block is built from at most the
first 10 articles in order, one line per article containing the title
and at most the first 100 characters of the description, joined by
newlines; the empty input yields the empty context, not an error. -/
theorem analyzer_context_spec (articles : List Article) :
    build_context articles = build_context (articles.take 10)
    ∧ ((∀ a ∈ articles.take 10, a.title.isSome ∧ a.description.isSome) →
        build_context articles = .ok (String.intercalate "\n"
          ((articles.take 10).map fun a =>
            "Título: " ++ a.title.getD "" ++ " - Descripción: " ++
              pySlice (a.description.getD "") 100)))
    ∧ (∀ d : String, (pySlice d 100).length ≤ 100)
    ∧ build_context ([] : List Article) = .ok "" := by
  refine ⟨?_, fun h => ?_, fun d => ?_, rfl⟩
  · unfold build_context
    rw [List.take_take]
    norm_num
  · unfold build_context
    rw [context_lines_ok _ h]
    rfl
  · show (String.mk (d.data.take 100)).length ≤ 100
    have hl : (String.mk (d.data.take 100)).length = (d.data.take 100).length := rfl
    rw [hl, List.length_take]
    omega

theorem analyzer_context_witness :
    build_context [⟨some "T", some "D", none, none, none⟩] =
      .ok (String.intercalate "\n"
        ((([⟨some "T", some "D", none, none, none⟩] : List Article).take 10).map
          fun a => "Título: " ++ a.title.getD "" ++ " - Descripción: " ++
            pySlice (a.description.getD "") 100)) :=
  (analyzer_context_spec _).2.1 (by decide)

/-- C1: for any provider name other than news_api and guardian,
`fetch_news` fails with the `ValueError` whose message embeds the
invalid name, for every possible behaviour of the network and the JSON
parser — so before any client is looked up or any network call is
attempted. -/
theorem fetch_news_unsupported (net : String → NetResult)
    (loads : String → Option PyJson) (api_name : String)
    (args : List String) (kwargs : Kwargs)
    (h1 : api_name ≠ "news_api") (h2 : api_name ≠ "guardian") :
    fetch_news net loads api_name args kwargs =
      .error (.valueError ("Error. API \x27" ++ api_name ++ "\x27 no soportada."))
    ∧ ∃ pre post, "Error. API \x27" ++ api_name ++ "\x27 no soportada." =
        pre ++ api_name ++ post := by
  constructor
  · unfold fetch_news
    rw [if_neg]
    simp [h1, h2]
  · exact ⟨"Error. API \x27", "\x27 no soportada.", rfl⟩

theorem fetch_news_unsupported_witness :
    fetch_news (fun _ => NetResult.timeoutError) (fun _ => none) "twitter" []
        ⟨none, none⟩ =
      .error (.valueError "Error. API \x27twitter\x27 no soportada.") :=
  (fetch_news_unsupported (fun _ => NetResult.timeoutError) (fun _ => none)
    "twitter" [] ⟨none, none⟩ (by decide) (by decide)).1

/-- C3: whenever the GET fails with an HTTP protocol error,
`newsapi_client` raises exactly `APIKeyError` with one fixed message,
whatever the status code; non-HTTP failures (DNS-style URL errors,
timeouts, malformed JSON bodies) propagate as their own native error
kinds and are never turned into `APIKeyError`. -/
theorem newsapi_client_error_spec (net : String → NetResult)
    (loads : String → Option PyJson) (api_key query : String)
    (timeout retries : Nat) :
    (∀ status, net (newsapi_url api_key query) = .httpError status →
        newsapi_client net loads api_key query timeout retries =
          .error (.apiKeyError "Ocurrió un error, no se pudo conectar con la API."))
    ∧ (∀ reason, net (newsapi_url api_key query) = .urlError reason →
        newsapi_client net loads api_key query timeout retries =
          .error (.urlError reason))
    ∧ (net (newsapi_url api_key query) = .timeoutError →
        newsapi_client net loads api_key query timeout retries =
          .error .timeoutError)
    ∧ (∀ body, net (newsapi_url api_key query) = .success body →
        loads body = none →
        newsapi_client net loads api_key query timeout retries =
          .error .jsonDecodeError) := by
  refine ⟨fun status h => ?_, fun reason h => ?_, fun h => ?_, fun body h hl => ?_⟩
  · unfold newsapi_client
    simp only [h]
  · unfold newsapi_client
    simp only [h]
  · unfold newsapi_client
    simp only [h]
  · unfold newsapi_client
    simp only [h, hl]

theorem newsapi_client_error_witness :
    newsapi_client (fun _ => NetResult.httpError 401) (fun _ => none)
        "key" "python" 30 3 =
      .error (.apiKeyError "Ocurrió un error, no se pudo conectar con la API.") :=
  (newsapi_client_error_spec (fun _ => NetResult.httpError 401) (fun _ => none)
    "key" "python" 30 3).1 401 rfl

end NewsApp
